import Mathlib

/-!
Verification of the helpdesk ticketing application's lifecycle and SLA logic.

The development shallowly embeds the persistence layer (`DatabaseStorage` in
the server source), the relevant HTTP route handlers, and the client-side
`calculateSLAProgress` helper.  Timestamps are modelled as natural numbers
counting milliseconds (mirroring JavaScript `Date.getTime()`); the database
is a record of lists of rows; queries become list operations.
-/

/-- `ticket_priority` enum from shared/schema.ts. -/
inductive Priority
  | low
  | medium
  | high
  | critical
deriving DecidableEq, Repr

/-- `ticket_status` enum from shared/schema.ts. -/
inductive Status
  | «open»
  | in_progress
  | on_hold
  | resolved
  | closed
deriving DecidableEq, Repr

/-- Union of the `user_role` enum in shared/schema.ts (admin, agent, employee,
manager) and the role strings checked by the route handlers (user, viewer). -/
inductive Role
  | admin
  | agent
  | employee
  | manager
  | viewer
  | user
deriving DecidableEq, Repr

/-- Milliseconds per hour; JS `setHours(getHours() + n)` advances the clock by
`n * msPerHour` milliseconds. -/
def msPerHour : Nat := 3600000

/-- The `slaHours` table in `DatabaseStorage.createTicket`:
critical → 1, high → 4, medium → 24, low → 72. -/
def slaHours : Priority → Nat
  | .critical => 1
  | .high => 4
  | .medium => 24
  | .low => 72

/-- Decimal digit as a character, mirroring JS `String(n)` conversion. -/
def digitChar : Nat → Char
  | 0 => '0'
  | 1 => '1'
  | 2 => '2'
  | 3 => '3'
  | 4 => '4'
  | 5 => '5'
  | 6 => '6'
  | 7 => '7'
  | 8 => '8'
  | 9 => '9'
  | _ => '*'

/-- Numeric value of a decimal digit character (inverse of `digitChar`). -/
def digitVal : Char → Nat
  | '1' => 1
  | '2' => 2
  | '3' => 3
  | '4' => 4
  | '5' => 5
  | '6' => 6
  | '7' => 7
  | '8' => 8
  | '9' => 9
  | _ => 0

/-- Decimal representation of a natural number as a character list,
mirroring JS `String(n)` for non-negative integers. -/
def jsDigits (n : Nat) : List Char :=
  if _h : n < 10 then [digitChar n]
  else jsDigits (n / 10) ++ [digitChar (n % 10)]
decreasing_by exact Nat.div_lt_self (by omega) (by omega)

/-- JS `String.prototype.padStart(len, c)`: left-pad with `c` up to `len`
characters (no-op when already at least `len` long). -/
def padStart (cs : List Char) (len : Nat) (c : Char) : List Char :=
  List.replicate (len - cs.length) c ++ cs

/-- Ticket number generated in `DatabaseStorage.createTicket` from the current
row count: `TKT-${String(count + 1).padStart(3, '0')}`. -/
def ticketNumberFor (ticketCount : Nat) : String :=
  String.mk ("TKT-".data ++ padStart (jsDigits (ticketCount + 1)) 3 '0')

/-- Reads the decimal value back out of a ticket-number string: drop the
`TKT-` prefix and fold up the (possibly zero-padded) decimal digits. -/
def decodeTicketNumber (s : String) : Nat :=
  (s.data.drop 4).foldl (fun a c => a * 10 + digitVal c) 0

/-- A `users` row (shared/schema.ts). -/
structure User where
  id : String
  username : String
  password : String
  name : String
  email : String
  mobile : Option String
  department : Option String
  role : Role
  createdAt : Nat
deriving DecidableEq, Repr

/-- A `tickets` row (shared/schema.ts). -/
structure Ticket where
  id : String
  ticketNumber : String
  title : String
  description : String
  category : String
  priority : Priority
  status : Status
  employeeId : String
  employeeName : String
  employeeEmail : String
  employeeMobile : String
  employeeDepartment : String
  assignedToId : Option String
  createdById : String
  createdAt : Nat
  updatedAt : Nat
  resolvedAt : Option Nat
  slaDeadline : Option Nat
deriving DecidableEq, Repr

/-- A `comments` row (shared/schema.ts). -/
structure Comment where
  id : String
  ticketId : String
  userId : String
  content : String
  isInternal : Bool
  createdAt : Nat
deriving DecidableEq, Repr

/-- An `attachments` row (shared/schema.ts). -/
structure Attachment where
  id : String
  ticketId : String
  filename : String
  originalName : String
  mimeType : String
  size : Nat
  uploadedById : String
  createdAt : Nat
deriving DecidableEq, Repr

/-- An `audit_logs` row (shared/schema.ts). -/
structure AuditLog where
  id : String
  ticketId : String
  userId : String
  action : String
  oldValue : Option String
  newValue : Option String
  createdAt : Nat
deriving DecidableEq, Repr

/-- The relational store: one list of rows per table. -/
structure DB where
  users : List User
  tickets : List Ticket
  comments : List Comment
  attachments : List Attachment
  auditLogs : List AuditLog
deriving DecidableEq, Repr

/-- `InsertTicket` (insertTicketSchema in shared/schema.ts: the tickets table
minus id, ticketNumber, createdAt, updatedAt and resolvedAt; `status` keeps its
`open` column default and `slaDeadline` stays nullable, though `createTicket`
overrides the latter). -/
structure InsertTicket where
  title : String
  description : String
  category : String
  priority : Priority
  status : Option Status
  employeeId : String
  employeeName : String
  employeeEmail : String
  employeeMobile : String
  employeeDepartment : String
  assignedToId : Option String
  createdById : String
  slaDeadline : Option Nat
deriving DecidableEq, Repr

/-- `DatabaseStorage.createTicket`: count the existing rows, derive the
ticket number from count + 1, compute `slaDeadline = now + slaHours[priority]`
(the JS code does `slaDeadline.setHours(slaDeadline.getHours() + hours)` on a
fresh `new Date()`), and insert the row.  `now` is the clock reading; `genId`
stands for the database-generated UUID; `createdAt`/`updatedAt` take their
`defaultNow()` column defaults and `status` its `open` default. -/
def createTicket (db : DB) (insertTicket : InsertTicket) (now : Nat) (genId : String) :
    Ticket × DB :=
  let ticketCount := db.tickets.length
  let ticketNumber := ticketNumberFor ticketCount
  let slaDeadline := now + slaHours insertTicket.priority * msPerHour
  let t : Ticket :=
    { id := genId
      ticketNumber := ticketNumber
      title := insertTicket.title
      description := insertTicket.description
      category := insertTicket.category
      priority := insertTicket.priority
      status := insertTicket.status.getD .«open»
      employeeId := insertTicket.employeeId
      employeeName := insertTicket.employeeName
      employeeEmail := insertTicket.employeeEmail
      employeeMobile := insertTicket.employeeMobile
      employeeDepartment := insertTicket.employeeDepartment
      assignedToId := insertTicket.assignedToId
      createdById := insertTicket.createdById
      createdAt := now
      updatedAt := now
      resolvedAt := none
      slaDeadline := some slaDeadline }
  (t, { db with tickets := db.tickets ++ [t] })

/-- Sequential (non-concurrent) ticket creation: each call to `createTicket`
completes before the next begins, threading the database state. -/
def createMany (db : DB) (inserts : List InsertTicket) (now : Nat) : List Ticket × DB :=
  match inserts with
  | [] => ([], db)
  | ins :: rest =>
    let r1 := createTicket db ins now ""
    let r2 := createMany r1.2 rest now
    (r1.1 :: r2.1, r2.2)

/-- `DatabaseStorage.getTicket`: select the row whose `id` matches. -/
def getTicket (db : DB) (id : String) : Option Ticket :=
  db.tickets.find? (fun t => t.id = id)

/-- `DatabaseStorage.getUserByUsername`: select the row whose `username`
matches. -/
def getUserByUsername (db : DB) (username : String) : Option User :=
  db.users.find? (fun u => u.username = username)

/-- `Partial<InsertTicket>` as received by `DatabaseStorage.updateTicket`:
every insertable ticket field optional. -/
structure TicketPatch where
  title : Option String
  description : Option String
  category : Option String
  priority : Option Priority
  status : Option Status
  employeeId : Option String
  employeeName : Option String
  employeeEmail : Option String
  employeeMobile : Option String
  employeeDepartment : Option String
  assignedToId : Option (Option String)
  createdById : Option String
  slaDeadline : Option (Option Nat)
deriving DecidableEq, Repr

/-- The patch that updates nothing (`{}` in JS). -/
def TicketPatch.empty : TicketPatch :=
  ⟨none, none, none, none, none, none, none, none, none, none, none, none, none⟩

/-- Spread semantics of `{ ...updateTicket, updatedAt: new Date() }` followed by
the conditional `resolvedAt` stamp in `DatabaseStorage.updateTicket`: fields
present in the patch overwrite the row, `updatedAt` is always refreshed, and
`resolvedAt = now` exactly when the incoming status is resolved or closed. -/
def applyTicketPatch (t : Ticket) (p : TicketPatch) (now : Nat) : Ticket :=
  { t with
    title := p.title.getD t.title
    description := p.description.getD t.description
    category := p.category.getD t.category
    priority := p.priority.getD t.priority
    status := p.status.getD t.status
    employeeId := p.employeeId.getD t.employeeId
    employeeName := p.employeeName.getD t.employeeName
    employeeEmail := p.employeeEmail.getD t.employeeEmail
    employeeMobile := p.employeeMobile.getD t.employeeMobile
    employeeDepartment := p.employeeDepartment.getD t.employeeDepartment
    assignedToId := p.assignedToId.getD t.assignedToId
    createdById := p.createdById.getD t.createdById
    slaDeadline := p.slaDeadline.getD t.slaDeadline
    updatedAt := now
    resolvedAt :=
      if p.status = some .resolved ∨ p.status = some .closed then some now
      else t.resolvedAt }

/-- `DatabaseStorage.updateTicket`: update the row whose `id` matches and
return it (`undefined`, i.e. `none`, when no row matches). -/
def updateTicket (db : DB) (id : String) (p : TicketPatch) (now : Nat) :
    Option Ticket × DB :=
  let db' := { db with
    tickets := db.tickets.map (fun t => if t.id = id then applyTicketPatch t p now else t) }
  ((getTicket db id).map (fun t => applyTicketPatch t p now), db')

/-- `DatabaseStorage.deleteTicket` under the schema's referential actions: the
`comments`, `attachments` and `audit_logs` tables all declare their `ticketId`
foreign keys with `onDelete: "cascade"` (shared/schema.ts), so deleting the
ticket row also deletes every dependent row referencing it.  Returns
`rowCount > 0` alongside the new state. -/
def deleteTicket (db : DB) (id : String) : Bool × DB :=
  let removed := db.tickets.filter (fun t => t.id = id)
  ( decide (0 < removed.length)
  , { db with
      tickets := db.tickets.filter (fun t => ¬ t.id = id)
      comments := db.comments.filter (fun c => ¬ c.ticketId = id)
      attachments := db.attachments.filter (fun a => ¬ a.ticketId = id)
      auditLogs := db.auditLogs.filter (fun l => ¬ l.ticketId = id) } )

/-- `DatabaseStorage.getTicketComments`: rows with the given `ticketId`
(ascending `createdAt`; insertion order is already chronological here). -/
def getTicketComments (db : DB) (ticketId : String) : List Comment :=
  db.comments.filter (fun c => c.ticketId = ticketId)

/-- `DatabaseStorage.getTicketAttachments`: rows with the given `ticketId`. -/
def getTicketAttachments (db : DB) (ticketId : String) : List Attachment :=
  db.attachments.filter (fun a => a.ticketId = ticketId)

/-- SQL `LIKE '%needle%'`: substring containment, as produced by the
`like(column, mask)` search conditions in `DatabaseStorage.getTickets`. -/
def sqlLikeContains (haystack needle : String) : Bool :=
  decide (needle.data <:+: haystack.data)

/-- The filter argument of `DatabaseStorage.getTickets`. -/
structure TicketFilters where
  status : Option Status
  priority : Option Priority
  department : Option String
  assignedToId : Option String
  createdById : Option String
  search : Option String
  page : Option Nat
  limit : Option Nat
deriving DecidableEq, Repr

/-- The empty filter object (`{}`). -/
def TicketFilters.empty : TicketFilters :=
  ⟨none, none, none, none, none, none, none, none⟩

/-- Conjunction of the `whereConditions` built in `DatabaseStorage.getTickets`:
equality on status/priority/department/assignedTo/createdBy plus the OR-search
over title, description, ticketNumber and employeeName. -/
def matchesFilters (f : TicketFilters) (t : Ticket) : Bool :=
  (match f.status with | none => true | some s => t.status = s) &&
  (match f.priority with | none => true | some p => t.priority = p) &&
  (match f.department with | none => true | some d => t.employeeDepartment = d) &&
  (match f.assignedToId with | none => true | some a => t.assignedToId = some a) &&
  (match f.createdById with | none => true | some c => t.createdById = c) &&
  (match f.search with
   | none => true
   | some s =>
     sqlLikeContains t.title s || sqlLikeContains t.description s ||
     sqlLikeContains t.ticketNumber s || sqlLikeContains t.employeeName s)

/-- `DatabaseStorage.getTickets`: filter, order by `createdAt` descending,
paginate with `offset = (page - 1) * limit` (defaults page 1, limit 20), and
fetch the total count of matching rows with the same where-clause. -/
def getTickets (db : DB) (f : TicketFilters) : List Ticket × Nat :=
  let page := f.page.getD 1
  let limit := f.limit.getD 20
  let offset := (page - 1) * limit
  let filtered := db.tickets.filter (matchesFilters f)
  let sorted := filtered.mergeSort (fun a b => decide (b.createdAt ≤ a.createdAt))
  (((sorted.drop offset).take limit), filtered.length)

/-- The SLA-breach count in `DatabaseStorage.getTicketStats`: tickets whose
status is open or in_progress and whose `slaDeadline` EQUALS the current time
(`eq(tickets.slaDeadline, now)` — the source comments that it should be `<`). -/
def slaBreachCount (db : DB) (now : Nat) : Nat :=
  (db.tickets.filter (fun t =>
    (t.status = Status.«open» || t.status = Status.in_progress) &&
    t.slaDeadline = some now)).length

/-- `DatabaseStorage.getTicketStats` result (total plus the breach count the
claims are about). -/
def getTicketStats (db : DB) (now : Nat) : Nat × Nat :=
  (db.tickets.length, slaBreachCount db now)

/-- `InsertUser` (insertUserSchema in shared/schema.ts). -/
structure InsertUser where
  username : String
  password : String
  name : String
  email : String
  mobile : Option String
  department : Option String
  role : Role
deriving DecidableEq, Repr

/-- `DatabaseStorage.createUser`, parameterised by the external bcrypt hash
function (`bcrypt.hash(password, 10)`): the stored row carries the hash in
place of the supplied plaintext. -/
def createUser (bhash : String → String) (db : DB) (ins : InsertUser)
    (now : Nat) (genId : String) : User × DB :=
  let u : User :=
    { id := genId
      username := ins.username
      password := bhash ins.password
      name := ins.name
      email := ins.email
      mobile := ins.mobile
      department := ins.department
      role := ins.role
      createdAt := now }
  (u, { db with users := db.users ++ [u] })

/-- The passport `LocalStrategy` verify callback, parameterised by the external
`bcrypt.compare`: look the user up by username, fail when absent, fail when the
comparison rejects, otherwise authenticate that user. -/
def loginVerify (bcompare : String → String → Bool) (db : DB)
    (username password : String) : Option User :=
  match getUserByUsername db username with
  | none => none
  | some u => if bcompare password u.password then some u else none

/-- Query parameters accepted by `GET /api/tickets`. -/
structure TicketsQuery where
  status : Option Status
  priority : Option Priority
  department : Option String
  search : Option String
  page : Option Nat
  limit : Option Nat
deriving DecidableEq, Repr

/-- The query with no parameters supplied. -/
def TicketsQuery.empty : TicketsQuery :=
  ⟨none, none, none, none, none, none⟩

/-- The `GET /api/tickets` handler: role-based filtering sets
`filters.createdById = req.user.id` only when `req.user.role === 'user'`
(viewers explicitly see everything; admin gets no extra filter; no other role
is constrained), then the query parameters are copied over and
`storage.getTickets` is called. -/
def apiGetTickets (requester : User) (q : TicketsQuery) (db : DB) :
    List Ticket × Nat :=
  let filters : TicketFilters :=
    { status := q.status
      priority := q.priority
      department := q.department
      assignedToId := none
      createdById := if requester.role = Role.user then some requester.id else none
      search := q.search
      page := q.page
      limit := q.limit }
  getTickets db filters

/-- Outcome of `GET /api/tickets/:id`. -/
inductive TicketDetailResponse
  | notFound
  | forbidden
  | ok (ticket : Ticket) (comments : List Comment) (attachments : List Attachment)
deriving DecidableEq, Repr

/-- The `GET /api/tickets/:id` handler: 404 when the ticket does not exist,
403 exactly when the requester's role is `employee` and the ticket was created
by someone else, otherwise the ticket with its comments and attachments. -/
def apiGetTicketById (requester : User) (id : String) (db : DB) :
    TicketDetailResponse :=
  match getTicket db id with
  | none => .notFound
  | some t =>
    if requester.role = Role.employee ∧ t.createdById ≠ requester.id then
      .forbidden
    else
      .ok t (getTicketComments db t.id) (getTicketAttachments db t.id)

/-- SLA display status of `calculateSLAProgress` (client pages/settings.tsx). -/
inductive SLAStatus
  | good
  | warning
  | danger
  | expired
deriving DecidableEq, Repr

/-- The fixed window `totalSLAHours * 60 * 60 * 1000` used by
`calculateSLAProgress`, with `totalSLAHours = 4` regardless of priority. -/
def totalSLAMs : ℚ := 4 * 60 * 60 * 1000

/-- Client `calculateSLAProgress` (pages/settings.tsx): with
`diffInMs = deadline - now`, expired when `diffInMs ≤ 0`; otherwise the
percentage is `((totalSLAMs - diffInMs) / totalSLAMs) * 100` clamped to
[0, 100] via `Math.max(0, Math.min(100, _))`, and the display status is
danger at ≥ 75, warning at ≥ 50, good below.  Exact rational arithmetic
stands in for JS floating point. -/
def calculateSLAProgress (now deadline : ℤ) : ℚ × SLAStatus :=
  let diffInMs : ℚ := (deadline : ℚ) - (now : ℚ)
  if diffInMs ≤ 0 then
    (100, .expired)
  else
    let percentage := max 0 (min 100 ((totalSLAMs - diffInMs) / totalSLAMs * 100))
    let status : SLAStatus :=
      if 75 ≤ percentage then .danger
      else if 50 ≤ percentage then .warning
      else .good
    (percentage, status)

/-- The empty database. -/
def emptyDB : DB := ⟨[], [], [], [], []⟩

/-- A sample ticket-creation payload, used to exercise the theorems on
concrete inputs. -/
def sampleInsert (title : String) : InsertTicket :=
  { title := title
    description := "printer jam"
    category := "hardware"
    priority := Priority.high
    status := none
    employeeId := "E1"
    employeeName := "Ann"
    employeeEmail := "ann@corp"
    employeeMobile := "1"
    employeeDepartment := "IT"
    assignedToId := none
    createdById := "alice"
    slaDeadline := none }

/-- A sample requester with role employee. -/
def alice : User :=
  { id := "alice"
    username := "alice"
    password := "hash1"
    name := "Alice"
    email := "alice@corp"
    mobile := none
    department := none
    role := Role.employee
    createdAt := 0 }

/-- A sample ticket created by a different user (`bob`). -/
def bobTicket : Ticket :=
  { id := "t1"
    ticketNumber := "TKT-001"
    title := "vpn down"
    description := "cannot connect"
    category := "network"
    priority := Priority.low
    status := Status.«open»
    employeeId := "E2"
    employeeName := "Bob"
    employeeEmail := "bob@corp"
    employeeMobile := "2"
    employeeDepartment := "IT"
    assignedToId := none
    createdById := "bob"
    createdAt := 5
    updatedAt := 5
    resolvedAt := none
    slaDeadline := some 99 }

/-- A database holding just `bobTicket`. -/
def dbOne : DB := ⟨[], [bobTicket], [], [], []⟩

/-- A comment attached to a ticket other than `bobTicket`. -/
def strayComment : Comment :=
  { id := "c1", ticketId := "t2", userId := "bob", content := "ping", isInternal := false,
    createdAt := 1 }

/-- A database holding `bobTicket` and a comment on another ticket. -/
def dbTwo : DB := ⟨[], [bobTicket], [strayComment], [], []⟩

/-- A sample user-creation payload. -/
def sampleInsertUser : InsertUser :=
  { username := "carol"
    password := "hunter2"
    name := "Carol"
    email := "carol@corp"
    mobile := none
    department := none
    role := Role.admin }

/-- A toy stand-in for the external bcrypt hash in witnesses: prepends a
sigil, so the output always differs from the input. -/
def toyHash (p : String) : String := "$" ++ p

/-- A patch that only sets the status to resolved. -/
def resolvePatch : TicketPatch :=
  { TicketPatch.empty with status := some Status.resolved }

/-- A sample requester with role viewer. -/
def vera : User :=
  { id := "vera"
    username := "vera"
    password := "hash2"
    name := "Vera"
    email := "vera@corp"
    mobile := none
    department := none
    role := Role.viewer
    createdAt := 0 }

/-- A sample requester with role admin. -/
def dana : User :=
  { id := "dana"
    username := "dana"
    password := "hash3"
    name := "Dana"
    email := "dana@corp"
    mobile := none
    department := none
    role := Role.admin
    createdAt := 0 }

/-- C1: createTicket sets slaDeadline to the creation time plus the fixed
priority offset, where the offsets are 1h for critical, 4h for high, 24h for
medium and 72h for low. -/
theorem C1_sla_deadline (db : DB) (ins : InsertTicket) (now : Nat) (genId : String) :
    (createTicket db ins now genId).1.slaDeadline =
      some ((createTicket db ins now genId).1.createdAt + slaHours ins.priority * msPerHour) ∧
    slaHours .critical = 1 ∧ slaHours .high = 4 ∧
    slaHours .medium = 24 ∧ slaHours .low = 72 := by
  refine ⟨rfl, rfl, rfl, rfl, rfl⟩

/-- `digitChar` and `digitVal` are mutually inverse on decimal digits. -/
theorem digitVal_digitChar (d : Nat) (h : d < 10) : digitVal (digitChar d) = d := by
  interval_cases d <;> rfl

/-- Folding the decimal digits of `n` onto an accumulator `a` yields
`a * 10 ^ (number of digits) + n`. -/
theorem foldl_jsDigits (n : Nat) :
    ∀ a : Nat, (jsDigits n).foldl (fun a c => a * 10 + digitVal c) a =
      a * 10 ^ (jsDigits n).length + n := by
  induction n using Nat.strong_induction_on with
  | _ n ih =>
    intro a
    rw [jsDigits]
    split
    · rename_i h
      simp [digitVal_digitChar n h]
    · rename_i h
      rw [List.foldl_append, ih (n / 10) (Nat.div_lt_self (by omega) (by omega)) a]
      simp only [List.foldl_cons, List.foldl_nil, List.length_append, List.length_cons,
        List.length_nil, Nat.zero_add]
      rw [digitVal_digitChar _ (Nat.mod_lt n (by omega))]
      rw [pow_succ, ← Nat.mul_assoc]
      omega

/-- Leading zero padding does not change the decoded value of zero. -/
theorem foldl_replicate_zero (k : Nat) :
    (List.replicate k '0').foldl (fun a c => a * 10 + digitVal c) 0 = 0 := by
  induction k with
  | zero => rfl
  | succ k ih =>
    rw [List.replicate_succ, List.foldl_cons]
    have h0 : (0 : Nat) * 10 + digitVal '0' = 0 := rfl
    rw [h0, ih]

/-- Decoding a generated ticket number recovers the counter it encodes. -/
theorem decodeTicketNumber_ticketNumberFor (cnt : Nat) :
    decodeTicketNumber (ticketNumberFor cnt) = cnt + 1 := by
  unfold decodeTicketNumber ticketNumberFor padStart
  have hd : "TKT-".data = ['T', 'K', 'T', '-'] := rfl
  rw [hd]
  have hdrop : ∀ Y : List Char, ((['T', 'K', 'T', '-'] : List Char) ++ Y).drop 4 = Y :=
    fun _ => rfl
  rw [hdrop]
  rw [List.foldl_append, foldl_replicate_zero, foldl_jsDigits]
  simp

/-- Distinct row counts produce distinct ticket numbers. -/
theorem ticketNumberFor_injective {a b : Nat} (h : ticketNumberFor a = ticketNumberFor b) :
    a = b := by
  have hab := congrArg decodeTicketNumber h
  rw [decodeTicketNumber_ticketNumberFor, decodeTicketNumber_ticketNumberFor] at hab
  omega

/-- The ticket number of a freshly created ticket encodes the prior row
count. -/
theorem createTicket_number (db : DB) (ins : InsertTicket) (now : Nat) (genId : String) :
    (createTicket db ins now genId).1.ticketNumber = ticketNumberFor db.tickets.length := rfl

/-- Creating a ticket grows the table by one row. -/
theorem createTicket_tickets_length (db : DB) (ins : InsertTicket) (now : Nat)
    (genId : String) :
    (createTicket db ins now genId).2.tickets.length = db.tickets.length + 1 := by
  simp [createTicket]

/-- The numbers generated by a sequential run of creations are exactly the
counters `rowCount + 1, rowCount + 2, ...` rendered by `ticketNumberFor`. -/
theorem createMany_numbers (db : DB) (inss : List InsertTicket) (now : Nat) :
    (createMany db inss now).1.map Ticket.ticketNumber =
      (List.range inss.length).map (fun i => ticketNumberFor (db.tickets.length + i)) := by
  induction inss generalizing db with
  | nil => rfl
  | cons ins rest ih =>
    simp only [createMany, List.map_cons, List.length_cons, createTicket_number]
    rw [ih, createTicket_tickets_length]
    rw [List.range_succ_eq_map, List.map_cons, List.map_map]
    refine congrArg₂ _ (congrArg _ (Nat.add_zero _).symm) ?_
    refine List.map_congr_left ?_
    intro i _
    exact congrArg ticketNumberFor (by omega)

/-- `jsDigits` on the first two counters. -/
theorem jsDigits_one : jsDigits 1 = ['1'] := by
  rw [jsDigits]
  norm_num
  rfl

/-- `jsDigits` on the second counter. -/
theorem jsDigits_two : jsDigits 2 = ['2'] := by
  rw [jsDigits]
  norm_num
  rfl

/-- The first ticket number on an empty table. -/
theorem ticketNumberFor_zero : ticketNumberFor 0 = "TKT-001" := by
  unfold ticketNumberFor padStart
  rw [jsDigits_one]
  rfl

/-- The second ticket number on an empty table. -/
theorem ticketNumberFor_one : ticketNumberFor 1 = "TKT-002" := by
  unfold ticketNumberFor padStart
  rw [jsDigits_two]
  rfl

/-- C2: under sequential creation the generated ticket numbers are strictly
increasing (in the counter they encode) and pairwise distinct; the number is
`TKT-` plus the zero-padded row count + 1, so an empty table yields TKT-001
then TKT-002. -/
theorem C2_ticket_numbers (db : DB) (inss : List InsertTicket) (now : Nat) :
    (createMany db inss now).1.map Ticket.ticketNumber =
      (List.range inss.length).map (fun i => ticketNumberFor (db.tickets.length + i)) ∧
    List.Pairwise (fun a b => decodeTicketNumber a < decodeTicketNumber b)
      ((createMany db inss now).1.map Ticket.ticketNumber) ∧
    ((createMany db inss now).1.map Ticket.ticketNumber).Nodup ∧
    (db.tickets = [] → 2 ≤ inss.length →
      ((createMany db inss now).1.map Ticket.ticketNumber).take 2 =
        ["TKT-001", "TKT-002"]) := by
  refine ⟨createMany_numbers db inss now, ?_⟩
  rw [createMany_numbers]
  have hpw : List.Pairwise (fun a b => decodeTicketNumber a < decodeTicketNumber b)
      ((List.range inss.length).map (fun i => ticketNumberFor (db.tickets.length + i))) := by
    rw [List.pairwise_map]
    refine (List.pairwise_lt_range _).imp ?_
    intro i j hij
    rw [decodeTicketNumber_ticketNumberFor, decodeTicketNumber_ticketNumberFor]
    omega
  refine ⟨hpw, ?_, ?_⟩
  · exact hpw.imp (fun h heq => absurd (heq ▸ h) (lt_irrefl _))
  · intro hempty hlen
    have h0 : db.tickets.length = 0 := by rw [hempty]; rfl
    rw [h0]
    rw [← List.map_take, List.take_range]
    have hmin : min 2 inss.length = 2 := by omega
    rw [hmin]
    have hr2 : List.range 2 = [0, 1] := rfl
    rw [hr2]
    simp only [List.map_cons, List.map_nil, Nat.zero_add]
    rw [ticketNumberFor_zero, ticketNumberFor_one]

/-- Witness for C2 at a concrete input: two creations on the empty table. -/
theorem C2_ticket_numbers_witness :
    emptyDB.tickets = [] ∧
    2 ≤ ([sampleInsert "a", sampleInsert "b"] : List InsertTicket).length ∧
    ((createMany emptyDB [sampleInsert "a", sampleInsert "b"] 0).1.map
        Ticket.ticketNumber).take 2 = ["TKT-001", "TKT-002"] :=
  ⟨rfl, by decide,
    (C2_ticket_numbers emptyDB [sampleInsert "a", sampleInsert "b"] 0).2.2.2 rfl (by decide)⟩

/-- C3: updating with incoming status resolved/closed stamps resolvedAt with
the (non-null) update time, which is at least the ticket's createdAt when the
clock is monotone; any other incoming status (or none) leaves resolvedAt at
its prior value; updatedAt is always refreshed. -/
theorem C3_update_resolved_stamp (db : DB) (id : String) (p : TicketPatch) (now : Nat)
    (t : Ticket) (hfind : getTicket db id = some t) (hclock : t.createdAt ≤ now) :
    ∃ t', (updateTicket db id p now).1 = some t' ∧
      t'.updatedAt = now ∧
      t'.createdAt = t.createdAt ∧
      ((p.status = some Status.resolved ∨ p.status = some Status.closed) →
        ∃ ts, t'.resolvedAt = some ts ∧ t.createdAt ≤ ts) ∧
      (¬(p.status = some Status.resolved ∨ p.status = some Status.closed) →
        t'.resolvedAt = t.resolvedAt) := by
  refine ⟨applyTicketPatch t p now, ?_, rfl, rfl, ?_, ?_⟩
  · simp [updateTicket, hfind]
  · intro hs
    refine ⟨now, ?_, hclock⟩
    simp only [applyTicketPatch]
    rw [if_pos hs]
  · intro hs
    simp only [applyTicketPatch]
    rw [if_neg hs]

/-- Witness for C3: resolving `bobTicket` at time 10. -/
theorem C3_update_resolved_stamp_witness :
    getTicket dbOne "t1" = some bobTicket ∧ bobTicket.createdAt ≤ 10 ∧
    (∃ t', (updateTicket dbOne "t1" resolvePatch 10).1 = some t' ∧
      t'.updatedAt = 10 ∧
      t'.createdAt = bobTicket.createdAt ∧
      ((resolvePatch.status = some Status.resolved ∨
          resolvePatch.status = some Status.closed) →
        ∃ ts, t'.resolvedAt = some ts ∧ bobTicket.createdAt ≤ ts) ∧
      (¬(resolvePatch.status = some Status.resolved ∨
          resolvePatch.status = some Status.closed) →
        t'.resolvedAt = bobTicket.resolvedAt)) :=
  ⟨by decide, by decide,
    C3_update_resolved_stamp dbOne "t1" resolvePatch 10 bobTicket (by decide) (by decide)⟩

/-- C4: the SLA-breach count compares slaDeadline for equality with "now", so
whenever no open/in-progress ticket's deadline coincides exactly with the
query's clock reading, the reported count is zero. -/
theorem C4_sla_breaches_equality (db : DB) (now : Nat)
    (h : ∀ t ∈ db.tickets,
      (t.status = Status.«open» ∨ t.status = Status.in_progress) →
      t.slaDeadline ≠ some now) :
    (getTicketStats db now).2 = 0 := by
  simp only [getTicketStats, slaBreachCount]
  rw [List.length_eq_zero, List.filter_eq_nil_iff]
  intro t ht hpred
  simp only [Bool.and_eq_true, Bool.or_eq_true, decide_eq_true_eq] at hpred
  exact h t ht hpred.1 hpred.2

/-- Witness for C4: `dbOne` at time 0 (the single deadline is 99). -/
theorem C4_sla_breaches_equality_witness :
    (∀ t ∈ dbOne.tickets,
      (t.status = Status.«open» ∨ t.status = Status.in_progress) →
      t.slaDeadline ≠ some 0) ∧
    (getTicketStats dbOne 0).2 = 0 :=
  ⟨by decide, C4_sla_breaches_equality dbOne 0 (by decide)⟩

/-- The comments table after `deleteTicket`. -/
theorem deleteTicket_comments (db : DB) (id : String) :
    (deleteTicket db id).2.comments = db.comments.filter (fun c => ¬ c.ticketId = id) := rfl

/-- The attachments table after `deleteTicket`. -/
theorem deleteTicket_attachments (db : DB) (id : String) :
    (deleteTicket db id).2.attachments =
      db.attachments.filter (fun a => ¬ a.ticketId = id) := rfl

/-- The audit-log table after `deleteTicket`. -/
theorem deleteTicket_auditLogs (db : DB) (id : String) :
    (deleteTicket db id).2.auditLogs = db.auditLogs.filter (fun l => ¬ l.ticketId = id) := rfl

/-- The tickets table after `deleteTicket`. -/
theorem deleteTicket_tickets (db : DB) (id : String) :
    (deleteTicket db id).2.tickets = db.tickets.filter (fun t => ¬ t.id = id) := rfl

/-- C9: deleting a ticket removes the ticket row and cascades to every
comment, attachment and audit log whose ticketId references it, while rows
referencing other tickets survive — so no dependent row outlives its parent. -/
theorem C9_delete_cascades (db : DB) (id : String) :
    (∀ t ∈ (deleteTicket db id).2.tickets, t.id ≠ id) ∧
    (∀ c ∈ (deleteTicket db id).2.comments, c.ticketId ≠ id) ∧
    (∀ a ∈ (deleteTicket db id).2.attachments, a.ticketId ≠ id) ∧
    (∀ l ∈ (deleteTicket db id).2.auditLogs, l.ticketId ≠ id) ∧
    (∀ c ∈ db.comments, c.ticketId ≠ id → c ∈ (deleteTicket db id).2.comments) ∧
    (∀ a ∈ db.attachments, a.ticketId ≠ id → a ∈ (deleteTicket db id).2.attachments) ∧
    (∀ l ∈ db.auditLogs, l.ticketId ≠ id → l ∈ (deleteTicket db id).2.auditLogs) := by
  refine ⟨?_, ?_, ?_, ?_, ?_, ?_, ?_⟩
  · intro x hx
    rw [deleteTicket_tickets] at hx
    simpa using (List.mem_filter.mp hx).2
  · intro x hx
    rw [deleteTicket_comments] at hx
    simpa using (List.mem_filter.mp hx).2
  · intro x hx
    rw [deleteTicket_attachments] at hx
    simpa using (List.mem_filter.mp hx).2
  · intro x hx
    rw [deleteTicket_auditLogs] at hx
    simpa using (List.mem_filter.mp hx).2
  · intro x hx hne
    rw [deleteTicket_comments]
    exact List.mem_filter.mpr ⟨hx, by simpa using hne⟩
  · intro x hx hne
    rw [deleteTicket_attachments]
    exact List.mem_filter.mpr ⟨hx, by simpa using hne⟩
  · intro x hx hne
    rw [deleteTicket_auditLogs]
    exact List.mem_filter.mpr ⟨hx, by simpa using hne⟩

/-- Witness for C9: deleting `t1` from `dbTwo` keeps the comment on `t2`. -/
theorem C9_delete_cascades_witness :
    strayComment ∈ dbTwo.comments ∧ strayComment.ticketId ≠ "t1" ∧
    strayComment ∈ (deleteTicket dbTwo "t1").2.comments :=
  ⟨by decide, by decide,
    (C9_delete_cascades dbTwo "t1").2.2.2.2.1 strayComment (by decide) (by decide)⟩

/-- The toy hash used by witnesses never fixes its input. -/
theorem toyHash_ne (p : String) : toyHash p ≠ p := by
  intro h
  have hl := congrArg String.length h
  rw [toyHash, String.length_append] at hl
  have h1 : "$".length = 1 := rfl
  omega

/-- C6: createUser stores the bcrypt hash of the supplied password (never the
plaintext, given bcrypt's fixed-point freedom), and the login verify callback
succeeds for exactly the users that exist under the supplied username and
whose stored hash the bcrypt comparison accepts. -/
theorem C6_password_hashing (bhash : String → String) (bcompare : String → String → Bool)
    (db : DB) (ins : InsertUser) (now : Nat) (genId : String)
    (username password : String) (hb : ∀ p, bhash p ≠ p) :
    ((createUser bhash db ins now genId).1.password = bhash ins.password ∧
      (createUser bhash db ins now genId).1.password ≠ ins.password) ∧
    (∀ u, loginVerify bcompare db username password = some u ↔
      getUserByUsername db username = some u ∧ bcompare password u.password = true) := by
  refine ⟨⟨rfl, hb ins.password⟩, ?_⟩
  intro u
  cases hfind : getUserByUsername db username with
  | none =>
    simp [loginVerify, hfind]
  | some v =>
    by_cases hc : bcompare password v.password = true
    · simp only [loginVerify, hfind, if_pos hc]
      constructor
      · intro h
        obtain rfl : v = u := Option.some_inj.mp h
        exact ⟨rfl, hc⟩
      · rintro ⟨h1, _⟩
        exact h1
    · simp only [loginVerify, hfind, Bool.not_eq_true] at hc ⊢
      rw [hc]
      simp only [Bool.false_eq_true, if_false]
      constructor
      · intro h
        exact absurd h (by simp)
      · rintro ⟨h1, h2⟩
        obtain rfl : v = u := Option.some_inj.mp h1
        rw [hc] at h2
        exact absurd h2 (by simp)

/-- Witness for C6: the toy hash and an always-accepting comparison. -/
theorem C6_password_hashing_witness :
    (∀ p : String, toyHash p ≠ p) ∧
    (((createUser toyHash emptyDB sampleInsertUser 0 "u1").1.password =
        toyHash sampleInsertUser.password ∧
      (createUser toyHash emptyDB sampleInsertUser 0 "u1").1.password ≠
        sampleInsertUser.password) ∧
    (∀ u, loginVerify (fun _ _ => true) emptyDB "carol" "pw" = some u ↔
      getUserByUsername emptyDB "carol" = some u ∧
        (fun (_ _ : String) => true) "pw" u.password = true)) :=
  ⟨toyHash_ne,
    C6_password_hashing toyHash (fun _ _ => true) emptyDB sampleInsertUser 0 "u1"
      "carol" "pw" toyHash_ne⟩

/-- C8: the SLA progress bar measures elapsed share of a fixed 4-hour window
whatever the ticket's priority: positive time budget gives the clamped
`((4h - remaining) / 4h) * 100` percentage, and a lapsed deadline reports
percentage 100 with status expired. -/
theorem C8_sla_progress (now deadline : ℤ) :
    (deadline - now ≤ 0 → calculateSLAProgress now deadline = (100, SLAStatus.expired)) ∧
    (0 < deadline - now →
      (calculateSLAProgress now deadline).1 =
        max 0 (min 100
          ((totalSLAMs - ((deadline : ℚ) - (now : ℚ))) / totalSLAMs * 100)) ∧
      totalSLAMs = ((4 * msPerHour : Nat) : ℚ)) := by
  constructor
  · intro h
    have hq : ((deadline : ℚ) - (now : ℚ)) ≤ 0 := by exact_mod_cast h
    simp only [calculateSLAProgress, if_pos hq]
  · intro h
    have hq : ¬ ((deadline : ℚ) - (now : ℚ) ≤ 0) := by
      push_neg
      exact_mod_cast h
    refine ⟨?_, ?_⟩
    · simp only [calculateSLAProgress, if_neg hq]
    · rw [totalSLAMs, msPerHour]
      norm_num

/-- Witness for C8: an expired deadline and a deadline one millisecond out. -/
theorem C8_sla_progress_witness :
    ((0 : ℤ) - 0 ≤ 0 ∧ calculateSLAProgress 0 0 = (100, SLAStatus.expired)) ∧
    (0 < (1 : ℤ) - 0 ∧
      ((calculateSLAProgress 0 1).1 =
        max 0 (min 100
          ((totalSLAMs - (((1 : ℤ) : ℚ) - ((0 : ℤ) : ℚ))) / totalSLAMs * 100)) ∧
      totalSLAMs = ((4 * msPerHour : Nat) : ℚ))) :=
  ⟨⟨by norm_num, (C8_sla_progress 0 0).1 (by norm_num)⟩,
   ⟨by norm_num, (C8_sla_progress 0 1).2 (by norm_num)⟩⟩

/-- C10: the ticket-detail route denies with 403 exactly when the requester's
role is employee and the ticket was created by someone else; any other role
(user, viewer, admin, agent, manager) always receives the existing ticket with
its comments and attachments, as does an employee reading their own ticket. -/
theorem C10_detail_access (u : User) (id : String) (db : DB) (t : Ticket)
    (h : getTicket db id = some t) :
    (apiGetTicketById u id db = TicketDetailResponse.forbidden ↔
      (u.role = Role.employee ∧ t.createdById ≠ u.id)) ∧
    (u.role ≠ Role.employee →
      apiGetTicketById u id db =
        TicketDetailResponse.ok t (getTicketComments db t.id)
          (getTicketAttachments db t.id)) ∧
    (u.role = Role.employee → t.createdById = u.id →
      apiGetTicketById u id db =
        TicketDetailResponse.ok t (getTicketComments db t.id)
          (getTicketAttachments db t.id)) := by
  by_cases hc : u.role = Role.employee ∧ t.createdById ≠ u.id
  · simp only [apiGetTicketById, h, if_pos hc]
    refine ⟨⟨fun _ => hc, fun _ => trivial⟩, ?_, ?_⟩
    · intro hr
      exact absurd hc.1 hr
    · intro _ hcr
      exact absurd hcr hc.2
  · simp only [apiGetTicketById, h, if_neg hc]
    refine ⟨⟨fun heq => ?_, fun hcontra => absurd hcontra hc⟩,
      fun _ => trivial, fun _ _ => trivial⟩
    exact absurd heq (by simp)

/-- Witness for C10: the viewer `vera` reads `bobTicket`. -/
theorem C10_detail_access_witness :
    getTicket dbOne "t1" = some bobTicket ∧ vera.role ≠ Role.employee ∧
    apiGetTicketById vera "t1" dbOne =
      TicketDetailResponse.ok bobTicket (getTicketComments dbOne bobTicket.id)
        (getTicketAttachments dbOne bobTicket.id) :=
  ⟨by decide, by decide,
    (C10_detail_access vera "t1" dbOne bobTicket (by decide)).2.1 (by decide)⟩

/-- C7: getTickets returns at most `limit` rows, taken after skipping
`(page - 1) * limit` rows of the ordered filtered listing (defaults page 1,
limit 20), while the returned total is the count of all rows matching the
filters, unchanged by any choice of page or limit. -/
theorem C7_pagination (db : DB) (f : TicketFilters) (_hpage : 1 ≤ f.page.getD 1) :
    (getTickets db f).1.length ≤ f.limit.getD 20 ∧
    (getTickets db f).1 =
      (((db.tickets.filter (matchesFilters f)).mergeSort
          (fun a b => decide (b.createdAt ≤ a.createdAt))).drop
        ((f.page.getD 1 - 1) * f.limit.getD 20)).take (f.limit.getD 20) ∧
    (getTickets db f).2 = (db.tickets.filter (matchesFilters f)).length ∧
    (∀ p l, (getTickets db { f with page := p, limit := l }).2 = (getTickets db f).2) := by
  refine ⟨?_, rfl, rfl, fun p l => rfl⟩
  exact List.length_take_le _ _

/-- Witness for C7: the default filters on `dbOne`. -/
theorem C7_pagination_witness :
    1 ≤ TicketFilters.empty.page.getD 1 ∧
    (getTickets dbOne TicketFilters.empty).1.length ≤ TicketFilters.empty.limit.getD 20 :=
  ⟨by decide, (C7_pagination dbOne TicketFilters.empty (by decide)).1⟩

/-- A ticket passing a filter that pins createdById has that creator. -/
theorem matchesFilters_createdById (f : TicketFilters) (t : Ticket) (cid : String)
    (hf : f.createdById = some cid) (hm : matchesFilters f t = true) :
    t.createdById = cid := by
  unfold matchesFilters at hm
  rw [hf] at hm
  simp only [Bool.and_eq_true, decide_eq_true_eq] at hm
  exact hm.1.2

/-- Every ticket in a getTickets page passes the filters. -/
theorem mem_getTickets_filter (db : DB) (f : TicketFilters) {t : Ticket}
    (ht : t ∈ (getTickets db f).1) : matchesFilters f t = true := by
  simp only [getTickets] at ht
  have h1 := List.mem_of_mem_take ht
  have h2 := List.mem_of_mem_drop h1
  rw [List.mem_mergeSort] at h2
  exact (List.mem_filter.mp h2).2

/-- When every row passes the filters, the first page at default size holds
the whole table (provided it fits). -/
theorem getTickets_all (db : DB) (f : TicketFilters)
    (hall : ∀ t, matchesFilters f t = true) (hpage : f.page.getD 1 = 1)
    (hlim : db.tickets.length ≤ f.limit.getD 20) :
    ∀ t ∈ db.tickets, t ∈ (getTickets db f).1 := by
  intro t ht
  simp only [getTickets]
  rw [hpage]
  simp only [Nat.sub_self, Nat.zero_mul, List.drop_zero]
  rw [List.take_of_length_le]
  · rw [List.mem_mergeSort, List.mem_filter]
    exact ⟨ht, hall t⟩
  · rw [List.length_mergeSort]
    rw [List.filter_eq_self.mpr (fun a _ => hall a)]
    exact hlim

/-- Counterexample to C5 as stated: the employee `alice` lists tickets and
receives `bobTicket`, created by someone else — the list route only restricts
requesters whose role is `user`. -/
theorem C5_role_scoping_counterexample :
    ¬ (∀ t ∈ (apiGetTickets alice TicketsQuery.empty dbOne).1,
        t.createdById = alice.id) := by
  intro h
  have hne : alice.role ≠ Role.user := by decide
  have hmem : bobTicket ∈ (apiGetTickets alice TicketsQuery.empty dbOne).1 := by
    unfold apiGetTickets
    rw [if_neg hne]
    refine getTickets_all dbOne _ ?_ ?_ (by decide) bobTicket (by decide)
    · intro t
      rfl
    · rfl
  have := h bobTicket hmem
  exact absurd this (by decide)

/-- C5 (amended): the ticket list is creator-scoped only for requesters whose
role is `user`; any other role — employee, viewer, admin, agent, manager —
receives the query unrestricted by creator, and in particular an admin with no
query parameters receives every ticket (whenever the table fits the default
page size of 20). -/
theorem C5_amended_role_scoping (u : User) (q : TicketsQuery) (db : DB) :
    (u.role = Role.user → ∀ t ∈ (apiGetTickets u q db).1, t.createdById = u.id) ∧
    (u.role ≠ Role.user →
      apiGetTickets u q db = getTickets db
        { status := q.status, priority := q.priority, department := q.department,
          assignedToId := none, createdById := none, search := q.search,
          page := q.page, limit := q.limit }) ∧
    (u.role = Role.admin → q = TicketsQuery.empty → db.tickets.length ≤ 20 →
      ∀ t ∈ db.tickets, t ∈ (apiGetTickets u q db).1) := by
  refine ⟨?_, ?_, ?_⟩
  · intro hrole t ht
    unfold apiGetTickets at ht
    rw [if_pos hrole] at ht
    exact matchesFilters_createdById _ t u.id rfl (mem_getTickets_filter db _ ht)
  · intro hrole
    unfold apiGetTickets
    rw [if_neg hrole]
  · intro hadmin hq hlen
    subst hq
    have hne : u.role ≠ Role.user := by
      rw [hadmin]
      decide
    unfold apiGetTickets
    rw [if_neg hne]
    refine getTickets_all db _ ?_ ?_ hlen
    · intro t
      rfl
    · rfl

/-- Witness for C5 (amended): the admin `dana` with no query parameters
receives `bobTicket`. -/
theorem C5_amended_role_scoping_witness :
    dana.role = Role.admin ∧ dbOne.tickets.length ≤ 20 ∧
    bobTicket ∈ dbOne.tickets ∧
    bobTicket ∈ (apiGetTickets dana TicketsQuery.empty dbOne).1 :=
  ⟨rfl, by decide, by decide,
    (C5_amended_role_scoping dana TicketsQuery.empty dbOne).2.2 rfl rfl (by decide)
      bobTicket (by decide)⟩
